import Mathlib

/-!
Formal model of the jeanhaley32/helpers logging package.

This file is a shallow embedding of the repository's logger, translated from
`src/logger.go` (the primary variant; the `part_003` variant is modelled in the
`P3` namespace where a claim cites it).  Go channels become explicit bounded
FIFO queues with a closed flag, the leveled `log.Logger` writers become tags,
writes to the sink become a list of (writer, line) events, `os.Exit(k)` becomes
an `exitCode` observation, and a run-time panic (nil dereference, as in calling
`Error()` on a nil error interface) becomes the `GoFault` error of an `Except`.
-/

/-- Colors, from `src/colors.go`. -/
inductive Color
  | RED | GREEN | GRAY | WHITE | YELLOW | PURPLE | BLUE
deriving DecidableEq, Repr

/-- `func (c Color) Color() string` from `src/colors.go`: ANSI escape code. -/
def Color.Color : Color → String
  | Color.RED => "\x1b[31m"
  | Color.GREEN => "\x1b[32m"
  | Color.GRAY => "\x1b[37m"
  | Color.WHITE => "\x1b[97m"
  | Color.YELLOW => "\x1b[33m"
  | Color.PURPLE => "\x1b[35m"
  | Color.BLUE => "\x1b[34m"

/-- `colorWrap` from `src/colors.go`; the constant `Reset` is inlined. -/
def colorWrap (c : Color) (m : String) : String :=
  Color.Color c ++ m ++ "\x1b[0m"

/- `errorType` in `src/logger.go` is a Go `int`; the constants below are the
`iota` block of lines 18-27.  Modelling it as `Int` keeps out-of-range values
expressible, which §4.1 of the spec talks about. -/

def DEBUG : Int := 0
def DONE : Int := 1
def CRITICAL : Int := 2
def ERROR : Int := 3
def WARNING : Int := 4
def INFO : Int := 5
def INTSIGNAL : Int := 6
def QUIT : Int := 7

/-- Color configuration variables of `src/logger.go` lines 32-36. -/
def debugColor : Color := Color.BLUE
def critColor : Color := Color.PURPLE
def errColor : Color := Color.RED
def warnColor : Color := Color.YELLOW
def baseColor : Color := Color.WHITE

/-- `func (e errorType) Color() Color`, `src/logger.go` lines 59-73.
The switch falls through to `baseColor` for any unlisted value. -/
def errorType.Color (e : Int) : Color :=
  if e = DEBUG then debugColor
  else if e = CRITICAL then critColor
  else if e = ERROR then errColor
  else if e = WARNING then warnColor
  else if e = INFO then baseColor
  else baseColor

/-- `func (e errorType) String() string`, `src/logger.go` lines 40-57.
`timeNow()` is the wall clock formatted as a string; it is passed in as `t`.
`fmt.Sprintf` with no verbs is the identity on its argument. -/
def errorType.String (e : Int) (t : String) : String :=
  if e = DEBUG then t ++ ":" ++ colorWrap (errorType.Color e) ("DEBUG:")
  else if e = CRITICAL then t ++ ":" ++ colorWrap (errorType.Color e) ("CRITICAL:")
  else if e = ERROR then t ++ ":" ++ colorWrap (errorType.Color e) ("ERROR:")
  else if e = WARNING then t ++ ":" ++ colorWrap (errorType.Color e) ("WARNING:")
  else if e = INFO then t ++ ":" ++ colorWrap (errorType.Color e) ("INFO:")
  else t ++ ":" ++ colorWrap (errorType.Color e) ("INFO:")

/-- Identity of the per-severity queue chosen by `func (e errorType) channel() ch`,
`src/logger.go` lines 108-126.  `qSigs` stands for the module-level `sigs`
variable (which `StartLogger` never initializes: it stays a nil channel). -/
inductive QueueId
  | qDebug | qCrit | qErr | qWarn | qInfo | qDone | qSigs
deriving DecidableEq, Repr

/-- `func (e errorType) channel() ch`, `src/logger.go` lines 108-126.
The switch falls through to the `info` channel for any unlisted value. -/
def errorType.channel (e : Int) : QueueId :=
  if e = DEBUG then QueueId.qDebug
  else if e = CRITICAL then QueueId.qCrit
  else if e = ERROR then QueueId.qErr
  else if e = WARNING then QueueId.qWarn
  else if e = INFO then QueueId.qInfo
  else if e = DONE then QueueId.qDone
  else if e = INTSIGNAL then QueueId.qSigs
  else QueueId.qInfo

/-- A log payload: the Go `any` values the logger distinguishes.  `goError m`
is an error whose `Error()` text is `m`; `goString s` is a plain string;
`other` is any value of another shape (including a nil `any`, the zero value
received from a closed empty channel). -/
inductive Payload
  | goError (msg : String)
  | goString (s : String)
  | other
deriving DecidableEq, Repr

/-- `func cioe(a any) error`, `src/logger.go` lines 306-315.  A Go `error` is
modelled by its `Error()` text, so `errors.New(t)` is `some t` and the
`default: return nil` branch is `none` (a nil error interface). -/
def cioe : Payload → Option String
  | Payload.goError m => some m
  | Payload.goString s => some s
  | Payload.other => none

/-- Run-time faults of the embedded code.  `nilDeref` is the panic raised by
calling `Error()` on a nil error interface (what `cioe(x).Error()` does when
`cioe` returned nil). -/
inductive GoFault
  | nilDeref
deriving DecidableEq, Repr

/-- The five leveled writers of `Mylogger` (`warnlog` .. `infolog`),
`src/logger.go` lines 150-154.  All write to the single sink file `f`. -/
inductive LogWriter
  | warnlog | errlog | critlog | debuglog | infolog
deriving DecidableEq, Repr

/-- One line handed to the sink: which leveled writer emitted it, and its text
(writer prefixes and `log` package decorations are carried by the tag). -/
abbrev LogEvent := LogWriter × String

/-- `log.Println(a, b)` with two operands: space-separated, as `fmt.Sprintln`. -/
def goPrintln2 (a b : String) : String := a ++ " " ++ b

/-- The line `l.infolog.Printf("Server ran for %s", time.Since(l.StartTime()))`
with the elapsed time rendered from the model clock. -/
def uptimeLine (d : Nat) : String := "Server ran for " ++ toString d

/-- A Go channel: bounded FIFO buffer plus a closed flag. -/
structure GoChan (α : Type) where
  buf : List α
  closed : Bool
  cap : Nat
deriving DecidableEq, Repr

/-- Result of a channel send: delivered, blocked (buffer full, open channel),
or panicked (send on closed channel). -/
inductive SendResult (α : Type)
  | ok (c : GoChan α)
  | blocked
  | panicked
deriving DecidableEq, Repr

/-- Semantics of `c <- m` on a buffered channel. -/
def GoChan.send {α : Type} (c : GoChan α) (m : α) : SendResult α :=
  if c.closed then SendResult.panicked
  else if c.buf.length < c.cap then SendResult.ok { c with buf := c.buf ++ [m] }
  else SendResult.blocked

/-- Semantics of `close(c)` (double close, which panics in Go, is not exercised
by any execution modelled here: each channel is closed at most once). -/
def GoChan.close {α : Type} (c : GoChan α) : GoChan α := { c with closed := true }

/-- A channel that is never ready (a nil Go channel). -/
def nilChanP : GoChan Payload := { buf := [], closed := false, cap := 0 }

/-- The `channels` struct of `src/logger.go` lines 134-143.  The `sigs` field
(`chan os.Signal`, local to `StartLogger`) carries no payloads and is modelled
only where signal arrival matters (the `SigShutdown` model below); the module
level `sigs ch` global stays nil. -/
structure Channels where
  crit : GoChan Payload
  err : GoChan Payload
  warn : GoChan Payload
  info : GoChan Payload
  debug : GoChan Payload
  done : GoChan Payload
  quit : GoChan Payload
deriving DecidableEq, Repr

/-- Look up the channel a `QueueId` names.  After `StartLogger` the module
globals and the struct fields are the same channels, so `e.channel()` resolves
to the corresponding field; the never-initialized global `sigs ch` is nil. -/
def Channels.at (cs : Channels) : QueueId → GoChan Payload
  | QueueId.qDebug => cs.debug
  | QueueId.qCrit => cs.crit
  | QueueId.qErr => cs.err
  | QueueId.qWarn => cs.warn
  | QueueId.qInfo => cs.info
  | QueueId.qDone => cs.done
  | QueueId.qSigs => nilChanP

/-- Write back the channel a `QueueId` names (`qSigs` is the nil global, never
written through this path). -/
def Channels.setAt (cs : Channels) (q : QueueId) (c : GoChan Payload) : Channels :=
  match q with
  | QueueId.qDebug => { cs with debug := c }
  | QueueId.qCrit => { cs with crit := c }
  | QueueId.qErr => { cs with err := c }
  | QueueId.qWarn => { cs with warn := c }
  | QueueId.qInfo => { cs with info := c }
  | QueueId.qDone => { cs with done := c }
  | QueueId.qSigs => cs

/-- `chBufSize`, `src/logger.go` line 130. -/
def chBufSize : Nat := 100

/-- `verboseDefault`, `src/logger.go` line 31. -/
def verboseDefault : Bool := false

/-- The `Mylogger` struct, `src/logger.go` lines 146-156.  The five writer
fields are the `LogWriter` tags, the `*sync.WaitGroup` is its counter, and
`start` uses an abstract clock. -/
structure Mylogger where
  start : Nat
  chans : Channels
  wgCount : Nat
  verbose : Bool
deriving DecidableEq, Repr

/-- The verbose flag computed in `StartLogger`, `src/logger.go` lines 243-249:
first variadic argument if present, else `verboseDefault`. -/
def startVerbose (isVerbose : List Bool) : Bool :=
  match isVerbose with
  | [] => verboseDefault
  | b :: _ => b

/-- `func StartLogger(f *os.File, isVerbose ...bool) *Mylogger`, `src/logger.go`
lines 225-268: fresh channels of capacity `chBufSize` (quit of capacity 1),
`start` set to the current clock, verbose from the variadic argument.  The
spawned goroutine immediately registers the mediator in the wait group
(line 264), so the counter starts at 1. -/
def StartLogger (now : Nat) (isVerbose : List Bool) : Mylogger :=
  { start := now
  , chans :=
    { crit := { buf := [], closed := false, cap := chBufSize }
    , err := { buf := [], closed := false, cap := chBufSize }
    , warn := { buf := [], closed := false, cap := chBufSize }
    , info := { buf := [], closed := false, cap := chBufSize }
    , debug := { buf := [], closed := false, cap := chBufSize }
    , done := { buf := [], closed := false, cap := chBufSize }
    , quit := { buf := [], closed := false, cap := 1 } }
  , wgCount := 1
  , verbose := startVerbose isVerbose }

/-- Which leveled writer the inner switch of `drainAndClose` prints through,
`src/logger.go` lines 171-180; a value outside the four cases prints nothing. -/
def drainWriter (e : Int) : Option LogWriter :=
  if e = ERROR then some LogWriter.errlog
  else if e = WARNING then some LogWriter.warnlog
  else if e = INFO then some LogWriter.infolog
  else if e = DEBUG then some LogWriter.debuglog
  else none

/-- The `drainAndClose` closure of `drainLogChannels`, `src/logger.go` lines
168-185.  A single `select` with a `default`: if the channel is ready (buffered
message, or closed and empty yielding the nil zero value) receive once and
print `cioe(m).Error()` through the matching writer; otherwise close the
channel and return.  Printing faults when `cioe` returned nil. -/
def drainAndClose (cs : Channels) (e : Int) : Except GoFault (Channels × List LogEvent) :=
  let q := errorType.channel e
  let c := cs.at q
  if c.buf.isEmpty && !c.closed then
    Except.ok (cs.setAt q (GoChan.close c), [])
  else
    match c.buf with
    | m :: rest =>
      match drainWriter e with
      | some w =>
        match cioe m with
        | some txt => Except.ok (cs.setAt q { c with buf := rest }, [(w, txt)])
        | none => Except.error GoFault.nilDeref
      | none => Except.ok (cs.setAt q { c with buf := rest }, [])
    | [] =>
      match drainWriter e with
      | some _ => Except.error GoFault.nilDeref
      | none => Except.ok (cs, [])

/-- The list `chList` iterated by `drainLogChannels`, `src/logger.go` lines
161-166: ERROR, WARNING, INFO, DEBUG (note: no CRITICAL, no DONE). -/
def chList : List Int := [ERROR, WARNING, INFO, DEBUG]

/-- Run `drainAndClose` over a list of severities, threading the channel state
and accumulating the emitted lines. -/
def drainList (cs : Channels) : List Int → Except GoFault (Channels × List LogEvent)
  | [] => Except.ok (cs, [])
  | e :: rest =>
    match drainAndClose cs e with
    | Except.ok (cs1, ev1) =>
      match drainList cs1 rest with
      | Except.ok (cs2, ev2) => Except.ok (cs2, ev1 ++ ev2)
      | Except.error f => Except.error f
    | Except.error f => Except.error f

/-- `func (l *Mylogger) drainLogChannels()`, `src/logger.go` lines 159-193:
one `drainAndClose` pass per severity in `chList` (the deferred `wg.Done()` is
accounted for in the shutdown model). -/
def drainLogChannels (cs : Channels) : Except GoFault (Channels × List LogEvent) :=
  drainList cs chList

/-- Observable outcome of `genericshutdownSequence`: the lines written, the
exit status if `os.Exit` ran (`some 1` on the error path; the graceful path of
this variant calls no `os.Exit`), whether the function returned to its caller
(`return true` at line 216), and the final channel state. -/
structure ShutdownResult where
  output : List LogEvent
  exitCode : Option Nat
  returned : Bool
  chans : Channels
deriving DecidableEq, Repr

/-- String literals of `genericshutdownSequence`. -/
def allStoppedLit : String := "All tracked Routines stopped"
def errExitLit : String := "Server exited with error: "
def shuttingDownLit : String := "Shutting Down..."

/-- `func (l *Mylogger) genericshutdownSequence(e error) bool`, `src/logger.go`
lines 196-217, straight-line behavior once `l.wg.Wait()` has returned (the
`SigShutdown` model below covers when that wait cannot return): close `done`,
print the verbose notice and the uptime line; on a non-nil error print the
error through `warnlog` and `os.Exit(1)`; otherwise print the shutdown notice,
run `drainLogChannels`, and return `true` to the caller. -/
def Mylogger.genericshutdownSequence (l : Mylogger) (now : Nat) (e : Option String) :
    Except GoFault ShutdownResult :=
  let cs0 := { l.chans with done := GoChan.close l.chans.done }
  let out0 := if l.verbose then [(LogWriter.debuglog, allStoppedLit)] else []
  let out1 := out0 ++ [(LogWriter.infolog, uptimeLine (now - l.start))]
  match e with
  | some msg =>
    Except.ok
      { output := out1 ++ [(LogWriter.warnlog, goPrintln2 errExitLit msg)]
      , exitCode := some 1
      , returned := false
      , chans := cs0 }
  | none =>
    match drainLogChannels cs0 with
    | Except.ok (cs1, evs) =>
      Except.ok
        { output := out1 ++ [(LogWriter.infolog, shuttingDownLit)] ++ evs
        , exitCode := none
        , returned := true
        , chans := cs1 }
    | Except.error f => Except.error f

/-- One log case of `mediateChannels`, `src/logger.go` lines 290-297: the body
`l.<w>.Println(cioe(e).Error())` run on a dequeued payload.  When `cioe`
returns nil (payload neither error nor string) the `Error()` call faults. -/
def mediateLogCase (w : LogWriter) (p : Payload) : Except GoFault LogEvent :=
  match cioe p with
  | some txt => Except.ok (w, txt)
  | none => Except.error GoFault.nilDeref

/-- Outcome of a façade call that can suspend or fault: it proceeded with a
possibly-updated logger, blocked on a full queue, or panicked. -/
inductive OpResult
  | proceeded (l : Mylogger)
  | blocked
  | panicked
deriving DecidableEq, Repr

/-- `func (l *Mylogger) Error(a any)`, `src/logger.go` lines 335-337. -/
def Mylogger.Error (l : Mylogger) (p : Payload) : OpResult :=
  match l.chans.err.send p with
  | SendResult.ok c => OpResult.proceeded { l with chans := { l.chans with err := c } }
  | SendResult.blocked => OpResult.blocked
  | SendResult.panicked => OpResult.panicked

/-- `func (l *Mylogger) Warning(a any)`, `src/logger.go` lines 350-352. -/
def Mylogger.Warning (l : Mylogger) (p : Payload) : OpResult :=
  match l.chans.warn.send p with
  | SendResult.ok c => OpResult.proceeded { l with chans := { l.chans with warn := c } }
  | SendResult.blocked => OpResult.blocked
  | SendResult.panicked => OpResult.panicked

/-- `func (l *Mylogger) Info(a any)`, `src/logger.go` lines 355-357. -/
def Mylogger.Info (l : Mylogger) (p : Payload) : OpResult :=
  match l.chans.info.send p with
  | SendResult.ok c => OpResult.proceeded { l with chans := { l.chans with info := c } }
  | SendResult.blocked => OpResult.blocked
  | SendResult.panicked => OpResult.panicked

/-- `func (l *Mylogger) Debug(a any)`, `src/logger.go` lines 340-347: sends to
the debug channel only when `l.verbose` is set, otherwise returns at once. -/
def Mylogger.Debug (l : Mylogger) (p : Payload) : OpResult :=
  if l.verbose then
    match l.chans.debug.send p with
    | SendResult.ok c => OpResult.proceeded { l with chans := { l.chans with debug := c } }
    | SendResult.blocked => OpResult.blocked
    | SendResult.panicked => OpResult.panicked
  else OpResult.proceeded l

/-- `func (l *Mylogger) Quit(a any)`, `src/logger.go` lines 360-362. -/
def Mylogger.Quit (l : Mylogger) (p : Payload) : OpResult :=
  match l.chans.quit.send p with
  | SendResult.ok c => OpResult.proceeded { l with chans := { l.chans with quit := c } }
  | SendResult.blocked => OpResult.blocked
  | SendResult.panicked => OpResult.panicked

/-- `func (l *Mylogger) AddToWaitGroup()`, `src/logger.go` lines 271-273. -/
def Mylogger.AddToWaitGroup (l : Mylogger) : Mylogger :=
  { l with wgCount := l.wgCount + 1 }

/-- `func (l *Mylogger) Done()`, `src/logger.go` lines 276-278. -/
def Mylogger.Done (l : Mylogger) : Mylogger :=
  { l with wgCount := l.wgCount - 1 }

/-- `func (l Mylogger) StartTime() time.Time`, `src/logger.go` lines 323-325. -/
def Mylogger.StartTime (l : Mylogger) : Nat := l.start

/-- `func (l Mylogger) Shutdown(e error) bool`, `src/logger.go` lines 318-320:
delegates to `genericshutdownSequence`. -/
def Mylogger.Shutdown (l : Mylogger) (now : Nat) (e : Option String) :
    Except GoFault ShutdownResult :=
  l.genericshutdownSequence now e

/-- Observable outcome of `critlog.Fatal`: the line written and the exit code. -/
structure FatalResult where
  output : List LogEvent
  exitCode : Option Nat
deriving DecidableEq, Repr

/-- `func (l *Mylogger) Critical(a any)`, `src/logger.go` lines 328-332:
`err := cioe(a); l.critlog.Fatal(err.Error())`.  `log.Fatal` prints the line
and calls `os.Exit(1)` directly; no channel is touched and
`genericshutdownSequence` is never invoked.  A malformed payload faults on
`err.Error()` before anything is printed. -/
def Mylogger.Critical (_l : Mylogger) (p : Payload) : Except GoFault FatalResult :=
  match cioe p with
  | some txt => Except.ok { output := [(LogWriter.critlog, txt)], exitCode := some 1 }
  | none => Except.error GoFault.nilDeref

/-- The public façade calls whose post-state the frame claim quantifies over. -/
inductive PublicOp
  | emitError (p : Payload)
  | emitWarning (p : Payload)
  | emitInfo (p : Payload)
  | emitDebug (p : Payload)
  | emitCritical (p : Payload)
  | quitOp (p : Payload)
  | shutdownOp (e : Option String)
  | addOp
  | doneOp
deriving DecidableEq, Repr

/-- The logger state after an `OpResult`: updated when the call proceeded,
unchanged when it blocked (a blocked send mutates nothing) or panicked. -/
def stateAfter (r : OpResult) (l : Mylogger) : Mylogger :=
  match r with
  | OpResult.proceeded l2 => l2
  | OpResult.blocked => l
  | OpResult.panicked => l

/-- The logger state after each public façade call.  `Critical` exits the
process via `log.Fatal` and writes no field; `Shutdown` leaves the channel
state its sequencer produced (no field other than `chans` is written). -/
def applyOp (now : Nat) (op : PublicOp) (l : Mylogger) : Mylogger :=
  match op with
  | PublicOp.emitError p => stateAfter (l.Error p) l
  | PublicOp.emitWarning p => stateAfter (l.Warning p) l
  | PublicOp.emitInfo p => stateAfter (l.Info p) l
  | PublicOp.emitDebug p => stateAfter (l.Debug p) l
  | PublicOp.emitCritical _ => l
  | PublicOp.quitOp p => stateAfter (l.Quit p) l
  | PublicOp.shutdownOp e =>
    match l.Shutdown now e with
    | Except.ok r => { l with chans := r.chans }
    | Except.error _ => l
  | PublicOp.addOp => l.AddToWaitGroup
  | PublicOp.doneOp => l.Done

namespace P3

/-!
Model of the `src/unnamed/part_003` variant, cited by claim C5: there the
Mediator Loop has a CRITICAL case (`mediateChannels`, part_003 lines 248-250)
which prints the message through `critlog` and then calls
`genericshutdownSequence(cioe(e))` synchronously with that non-nil error.
-/

/-- State of the part_003 logger that its shutdown sequence reads: the start
clock and the channel set (its `drainChannel` walks the severity channels with
`for m := range ...`). -/
structure LoggerState where
  start : Nat
  chans : Channels
deriving DecidableEq, Repr

/-- Outcome of the part_003 `genericshutdownSequence`: the process exits with a
code, or the call hangs forever (its graceful path ranges over the still-open
`crit` channel, which never closes, so the drain goroutine never finishes and
`wg.Wait()` never returns). -/
inductive Outcome
  | exits (code : Nat) (output : List LogEvent)
  | hangs (output : List LogEvent)
deriving DecidableEq, Repr

/-- Print a buffered list of payloads through one writer (`drain`'s
`for m := range` body in part_003 lines 140-154), faulting on a payload whose
`cioe` is nil. -/
def printAll (w : LogWriter) : List Payload → Except GoFault (List LogEvent)
  | [] => Except.ok []
  | m :: rest =>
    match cioe m with
    | some txt =>
      match printAll w rest with
      | Except.ok evs => Except.ok ((w, txt) :: evs)
      | Except.error f => Except.error f
    | none => Except.error GoFault.nilDeref

/-- `func (l Mylogger) genericshutdownSequence(e error)`, part_003 lines
164-183: close the shutdown channel, wait, report, then either exit 1 on a
non-nil error, or start draining — where `drain(CRITICAL)` ranges over the
open `crit` channel: it prints the buffered critical messages and then blocks
forever, so the graceful path hangs before `os.Exit(0)`. -/
def genericshutdownSequence (s : LoggerState) (now : Nat) (e : Option String) :
    Except GoFault Outcome :=
  let out1 := [(LogWriter.infolog, allStoppedLit),
               (LogWriter.infolog, uptimeLine (now - s.start))]
  match e with
  | some msg =>
    Except.ok (Outcome.exits 1 (out1 ++ [(LogWriter.warnlog, goPrintln2 errExitLit msg)]))
  | none =>
    match printAll LogWriter.critlog s.chans.crit.buf with
    | Except.ok evs =>
      Except.ok (Outcome.hangs (out1 ++ [(LogWriter.infolog, shuttingDownLit)] ++ evs))
    | Except.error f => Except.error f

/-- The CRITICAL case of `mediateChannels`, part_003 lines 248-250:
`m.critlog.Println(cioe(e).Error()); m.genericshutdownSequence(cioe(e))`. -/
def mediateCritCase (s : LoggerState) (now : Nat) (p : Payload) :
    Except GoFault (LogEvent × Outcome) :=
  match cioe p with
  | none => Except.error GoFault.nilDeref
  | some txt =>
    match genericshutdownSequence s now (some txt) with
    | Except.ok o => Except.ok ((LogWriter.critlog, txt), o)
    | Except.error f => Except.error f

end P3

namespace SigShutdown

/-!
Control-flow model of the OS-signal shutdown path of `src/logger.go`, for the
deadlock claim.  The relevant code:

  * `StartLogger` lines 261-266: the spawned goroutine calls
    `l.AddToWaitGroup()` (the mediator's own registration) and then runs
    `mediateChannels(&l)`.
  * `mediateChannels` lines 281-303: a select loop; its `done` case (lines
    284-286) calls `l.Done()` and returns — the only place the mediator's
    registration is ever released; its `sigs` case (lines 298-300) calls
    `l.genericshutdownSequence(nil)` synchronously on the mediator goroutine.
  * `genericshutdownSequence` lines 196-201: `close(l.chans.done)` then
    `l.wg.Wait()`, which returns only when the counter is zero.

Each transition below is one of those code events; `otherWork` counts
registrations by application goroutines, each released by a matching `Done`
(the spec's Work Tracker contract assumes disciplined pairing).
-/

/-- Where the mediator goroutine is in the code. -/
inductive Phase
  | selecting       -- blocked in the select of `mediateChannels`
  | handlingSignal  -- took the `sigs` case, about to enter the sequencer
  | waitingOnWg     -- inside `genericshutdownSequence`, at `l.wg.Wait()`
  | sequencerDone   -- `l.wg.Wait()` returned: the sequence can complete
  | exitedMediator  -- took the `done` case: called `l.Done()` and returned
deriving DecidableEq, Repr

/-- Global state of the signal-shutdown scenario. -/
structure SState where
  medRegistered : Bool  -- the mediator's own `wg.Add(1)` not yet released
  otherWork : Nat       -- outstanding application registrations
  doneClosed : Bool     -- `close(l.chans.done)` has run
  sigPending : Bool     -- an OS signal is waiting on the `sigs` channel
  phase : Phase
deriving DecidableEq, Repr

/-- The WaitGroup counter in a state. -/
def wgCount (s : SState) : Nat :=
  (if s.medRegistered then 1 else 0) + s.otherWork

/-- One scheduler step.  Each constructor is one code event of the scenario. -/
inductive Step : SState → SState → Prop
  | recvSignal (s : SState) :
      s.phase = Phase.selecting → s.sigPending = true →
      Step s { s with sigPending := false, phase := Phase.handlingSignal }
  | seqCloseDone (s : SState) :
      s.phase = Phase.handlingSignal →
      Step s { s with doneClosed := true, phase := Phase.waitingOnWg }
  | waitReturns (s : SState) :
      s.phase = Phase.waitingOnWg → wgCount s = 0 →
      Step s { s with phase := Phase.sequencerDone }
  | otherDone (s : SState) (n : Nat) :
      s.otherWork = n + 1 →
      Step s { s with otherWork := n }
  | medObservesDone (s : SState) :
      s.phase = Phase.selecting → s.doneClosed = true →
      Step s { s with medRegistered := false, phase := Phase.exitedMediator }

/-- Initial state of the claimed scenario: the logger just started (mediator
registered, in its select), no application work outstanding, and an OS signal
has been delivered. -/
def s0 : SState :=
  { medRegistered := true, otherWork := 0, doneClosed := false
  , sigPending := true, phase := Phase.selecting }

/-- Reachability from the scenario's initial state. -/
def Reach (s : SState) : Prop := Relation.ReflTransGen Step s0 s

/-- Invariant: the mediator's registration is never released, the `done` close
only happens after the mediator leaves its select, and the sequencer never
gets past its wait. -/
def Inv (s : SState) : Prop :=
  s.medRegistered = true ∧
  (s.phase = Phase.selecting → s.doneClosed = false) ∧
  s.phase ≠ Phase.sequencerDone

end SigShutdown

/-! ### Concrete fixtures used by the closed theorems below -/

/-- An empty open channel of capacity `chBufSize`. -/
def openChan100 : GoChan Payload := { buf := [], closed := false, cap := 100 }

/-- An empty closed channel of capacity `chBufSize`. -/
def closedChan100 : GoChan Payload := { buf := [], closed := true, cap := 100 }

/-- The quit channel as `StartLogger` makes it. -/
def openQuit : GoChan Payload := { buf := [], closed := false, cap := 1 }

/-- Channel state with two string messages buffered on the ERROR queue. -/
def CSa : Channels :=
  { crit := openChan100
  , err := { buf := [Payload.goString ("a"), Payload.goString ("b")], closed := false, cap := 100 }
  , warn := openChan100, info := openChan100, debug := openChan100
  , done := openChan100, quit := openQuit }

/-- What `drainLogChannels` leaves of `CSa`: one ERROR message forwarded, the
second still buffered, the ERROR queue still open, the empty queues closed. -/
def CSa1 : Channels :=
  { crit := openChan100
  , err := { buf := [Payload.goString ("b")], closed := false, cap := 100 }
  , warn := closedChan100, info := closedChan100, debug := closedChan100
  , done := openChan100, quit := openQuit }

/-- Channel state with a single string message buffered on the ERROR queue. -/
def CSb : Channels :=
  { crit := openChan100
  , err := { buf := [Payload.goString ("late")], closed := false, cap := 100 }
  , warn := openChan100, info := openChan100, debug := openChan100
  , done := openChan100, quit := openQuit }

/-- What `drainLogChannels` leaves of `CSb`: the ERROR queue emptied but never
closed (close only happens in the `default` branch, taken when a queue is
already empty on entry), the other three queues closed. -/
def CSb1 : Channels :=
  { crit := openChan100
  , err := { buf := [], closed := false, cap := 100 }
  , warn := closedChan100, info := closedChan100, debug := closedChan100
  , done := openChan100, quit := openQuit }

/-- A logger as `StartLogger(f)` builds it at clock 0, no verbosity argument. -/
def L0 : Mylogger := StartLogger 0 []

/-- A logger started at clock 5 with verbose mode on. -/
def L4 : Mylogger := StartLogger 5 [true]

/-- A well-formed (string) payload. -/
def PBoom : Payload := Payload.goString ("boom")

/-- A part_003 logger state started at clock 2. -/
def P3S0 : P3.LoggerState := { start := 2, chans := CSb }

/-- The channel state after `genericshutdownSequence(nil)` runs on a logger
whose queues are all empty: `done` closed first, then the four queues of
`chList` closed by the drain's default branch; `crit` and `quit` stay open. -/
def drainedEmptyChans : Channels :=
  { crit := openChan100, err := closedChan100, warn := closedChan100
  , info := closedChan100, debug := closedChan100, done := closedChan100
  , quit := openQuit }

/-! ### Helper lemmas (shared) -/

/-- In the default branch (severity not among the five rendered ones) the color
switch of `errorType.Color` yields `baseColor`. -/
theorem errorType_Color_default (e : Int) (h0 : e ≠ DEBUG) (h2 : e ≠ CRITICAL)
    (h3 : e ≠ ERROR) (h4 : e ≠ WARNING) (h5 : e ≠ INFO) :
    errorType.Color e = baseColor := by
  unfold errorType.Color
  rw [if_neg h0, if_neg h2, if_neg h3, if_neg h4, if_neg h5]

/-- In the default branch the render switch of `errorType.String` yields the
INFO-equivalent line. -/
theorem errorType_String_default (e : Int) (t : String) (h0 : e ≠ DEBUG)
    (h2 : e ≠ CRITICAL) (h3 : e ≠ ERROR) (h4 : e ≠ WARNING) (h5 : e ≠ INFO) :
    errorType.String e t = t ++ ":" ++ colorWrap baseColor ("INFO:") := by
  unfold errorType.String
  rw [if_neg h0, if_neg h2, if_neg h3, if_neg h4, if_neg h5,
    errorType_Color_default e h0 h2 h3 h4 h5]

/-- In the default branch the queue switch of `errorType.channel` yields the
INFO queue. -/
theorem errorType_channel_default (e : Int) (h0 : e ≠ DEBUG) (h1 : e ≠ DONE)
    (h2 : e ≠ CRITICAL) (h3 : e ≠ ERROR) (h4 : e ≠ WARNING) (h5 : e ≠ INFO)
    (h6 : e ≠ INTSIGNAL) :
    errorType.channel e = QueueId.qInfo := by
  unfold errorType.channel
  rw [if_neg h0, if_neg h2, if_neg h3, if_neg h4, if_neg h5, if_neg h1, if_neg h6]

/-- Every `Step` of the signal-shutdown model preserves `Inv`. -/
theorem sig_inv_step (s t : SigShutdown.SState) (hs : SigShutdown.Inv s)
    (h : SigShutdown.Step s t) : SigShutdown.Inv t := by
  obtain ⟨hm, hsel, hnd⟩ := hs
  cases h with
  | recvSignal hph hsig =>
    exact ⟨hm, by intro hc; simp at hc, by simp⟩
  | seqCloseDone hph =>
    exact ⟨hm, by intro hc; simp at hc, by simp⟩
  | waitReturns hph hw =>
    exact absurd hw (by simp [SigShutdown.wgCount, hm])
  | otherDone n hn =>
    exact ⟨hm, hsel, hnd⟩
  | medObservesDone hph hdc =>
    exact absurd hdc (by simp [hsel hph])

/-- Every state reachable from the signal scenario's start satisfies `Inv`. -/
theorem sig_inv_reach (s : SigShutdown.SState) (h : SigShutdown.Reach s) :
    SigShutdown.Inv s := by
  unfold SigShutdown.Reach at h
  induction h with
  | refl => exact ⟨rfl, fun _ => rfl, by simp [SigShutdown.s0]⟩
  | tail hr hstep ih => exact sig_inv_step _ _ ih hstep

/-! ### Claim theorems -/

/-- C1.  The claim says the drain step forwards every message buffered before
shutdown to its sink exactly once, draining each severity queue to exhaustion.
The code does not: `drainAndClose` performs a single `select` per queue, so on
a channel state whose ERROR queue holds the two messages "a" and "b",
`drainLogChannels` forwards only "a" and terminates with "b" still buffered
(and the ERROR queue not even closed) — "b" is never delivered, contradicting
the claim and the function's own comments. -/
theorem drainLogChannels_drops_buffered_message :
    drainLogChannels CSa = Except.ok (CSa1, [(LogWriter.errlog, "a")]) ∧
    CSa1.err.buf = [Payload.goString ("b")] ∧ CSa1.err.closed = false := by
  refine ⟨?_, rfl, rfl⟩
  rfl

/-- C2.  The claim says that after the drain step every severity queue is empty
and closed and no later enqueue can succeed silently.  The code closes a queue
only when it was already empty on entry (the `default` branch): on a channel
state whose ERROR queue held one message, the drain empties it but leaves it
open, the CRITICAL queue is never touched at all, and a subsequent send on the
ERROR queue succeeds silently. -/
theorem drainLogChannels_leaves_queue_open_enqueue_succeeds :
    drainLogChannels CSb = Except.ok (CSb1, [(LogWriter.errlog, "late")]) ∧
    CSb1.err.closed = false ∧ CSb1.crit.closed = false ∧
    GoChan.send CSb1.err (Payload.goString ("after")) =
      SendResult.ok { buf := [Payload.goString ("after")], closed := false, cap := 100 } := by
  refine ⟨?_, rfl, rfl, ?_⟩ <;> rfl

/-- C3.  When the Shutdown Sequencer is invoked with a non-nil terminal error,
it writes the error text through `warnlog` to the sink and calls `os.Exit(1)`
(so the call never returns): for every logger state, clock and error text, the
sequencer's error path yields exit status 1 with the terminal error line in
the output. -/
theorem shutdown_error_path_reports_and_exits_one (l : Mylogger) (now : Nat) (msg : String) :
    ∃ r, l.genericshutdownSequence now (some msg) = Except.ok r ∧
      r.exitCode = some 1 ∧ r.returned = false ∧
      (LogWriter.warnlog, goPrintln2 errExitLit msg) ∈ r.output := by
  refine ⟨_, rfl, rfl, rfl, ?_⟩
  simp [Mylogger.genericshutdownSequence]

/-- C4.  The claim says the graceful success path exits the process with
status 0 and does not return.  In `src/logger.go` the nil-error path of
`genericshutdownSequence` never calls `os.Exit`: it ends in `return true`
(directly under the comment "exit with status 0"), handing control back to the
caller — shown here by evaluating the sequencer on a freshly started verbose
logger with empty queues. -/
theorem shutdown_graceful_path_returns_without_exit :
    ∃ r, L4.genericshutdownSequence 22 none = Except.ok r ∧
      r.exitCode = none ∧ r.returned = true := by
  refine ⟨_, rfl, rfl, rfl⟩

/-- C5 counterexample.  The claim says a CRITICAL emit takes the same graceful
path as an OS signal (the Shutdown Sequencer invoked synchronously).  On the
same freshly started logger, `Critical` produces only the critical line and
exit status 1 — none of the sequencer's mandatory effects (uptime report,
queue drain and close, status-0 return) — while the OS-signal path's
`genericshutdownSequence(nil)` produces the uptime and shutdown lines, closes
the queues, and ends with no `os.Exit` at all; the two behaviors differ. -/
theorem critical_not_graceful_counterexample :
    L0.Critical PBoom =
      Except.ok { output := [(LogWriter.critlog, "boom")], exitCode := some 1 } ∧
    L0.genericshutdownSequence 17 none =
      Except.ok { output := [(LogWriter.infolog, uptimeLine 17),
                             (LogWriter.infolog, shuttingDownLit)]
                , exitCode := none, returned := true, chans := drainedEmptyChans } ∧
    (some 1 : Option Nat) ≠ none := by
  refine ⟨rfl, ?_, by simp⟩
  rfl

/-- C5 as amended.  In the primary variant (`src/logger.go`), `Critical` with a
well-formed payload terminates immediately via `critlog.Fatal`: it writes the
critical line and exits with status 1, without invoking the Shutdown Sequencer.
In the `part_003` variant, the Mediator Loop's CRITICAL case does invoke the
Shutdown Sequencer synchronously, but passes the payload as a terminal error,
so it takes the error path — exit status 1 before any drain — not the
nil-error graceful path used for OS signals. -/
theorem critical_fatal_and_p3_error_path (l : Mylogger) (s : P3.LoggerState)
    (now : Nat) (p : Payload) (txt : String) (h : cioe p = some txt) :
    l.Critical p =
      Except.ok { output := [(LogWriter.critlog, txt)], exitCode := some 1 } ∧
    P3.mediateCritCase s now p =
      Except.ok ((LogWriter.critlog, txt),
        P3.Outcome.exits 1 [(LogWriter.infolog, allStoppedLit),
                            (LogWriter.infolog, uptimeLine (now - s.start)),
                            (LogWriter.warnlog, goPrintln2 errExitLit txt)]) := by
  constructor
  · simp [Mylogger.Critical, h]
  · simp [P3.mediateCritCase, P3.genericshutdownSequence, h]

/-- C5 witness: the amended claim at a concrete logger, part_003 state, clock
and payload. -/
theorem critical_fatal_and_p3_error_path_witness :
    cioe PBoom = some ("boom") ∧
    (L0.Critical PBoom =
      Except.ok { output := [(LogWriter.critlog, "boom")], exitCode := some 1 } ∧
    P3.mediateCritCase P3S0 9 PBoom =
      Except.ok ((LogWriter.critlog, "boom"),
        P3.Outcome.exits 1 [(LogWriter.infolog, allStoppedLit),
                            (LogWriter.infolog, uptimeLine (9 - P3S0.start)),
                            (LogWriter.warnlog, goPrintln2 errExitLit ("boom"))])) :=
  ⟨rfl, critical_fatal_and_p3_error_path L0 P3S0 9 PBoom ("boom") rfl⟩

/-- C6.  The claim says a payload that is neither an error nor a string is
normalized to an empty/nil representation and handled silently, with no fault.
`cioe` does return nil for such a payload, but the Mediator Loop's log cases
then call `Error()` on that nil error interface, which panics: processing a
malformed payload faults instead of being silent. -/
theorem malformed_payload_faults_in_mediator :
    cioe Payload.other = none ∧
    mediateLogCase LogWriter.infolog Payload.other = Except.error GoFault.nilDeref :=
  ⟨rfl, rfl⟩

/-- C7.  The severity-taxonomy functions are total (they are Lean functions on
all of `Int`), and any severity value outside the declared constants resolves
to the INFO-equivalent default: the INFO-rendered line, the base color, and
the INFO queue. -/
theorem severity_taxonomy_total_default_info (e : Int) (t : String)
    (h : e ∉ ([DEBUG, DONE, CRITICAL, ERROR, WARNING, INFO, INTSIGNAL] : List Int)) :
    errorType.String e t = errorType.String INFO t ∧
    errorType.Color e = errorType.Color INFO ∧
    errorType.channel e = errorType.channel INFO ∧
    errorType.channel e = QueueId.qInfo := by
  simp only [List.mem_cons, List.mem_singleton, not_or] at h
  obtain ⟨h0, h1, h2, h3, h4, h5, h6, -⟩ := h
  refine ⟨?_, ?_, ?_, ?_⟩
  · rw [errorType_String_default e t h0 h2 h3 h4 h5]
    rfl
  · rw [errorType_Color_default e h0 h2 h3 h4 h5]
    rfl
  · rw [errorType_channel_default e h0 h1 h2 h3 h4 h5 h6]
    rfl
  · exact errorType_channel_default e h0 h1 h2 h3 h4 h5 h6

/-- C7 witness: the declared-but-unhandled value QUIT resolves to the INFO
defaults. -/
theorem severity_taxonomy_total_default_info_witness :
    (QUIT ∉ ([DEBUG, DONE, CRITICAL, ERROR, WARNING, INFO, INTSIGNAL] : List Int)) ∧
    (errorType.String QUIT ("ts") = errorType.String INFO ("ts") ∧
     errorType.Color QUIT = errorType.Color INFO ∧
     errorType.channel QUIT = errorType.channel INFO ∧
     errorType.channel QUIT = QueueId.qInfo) :=
  ⟨by decide, severity_taxonomy_total_default_info QUIT ("ts") (by decide)⟩

/-- C8.  `Debug` is a no-op when verbose mode is off — it enqueues nothing and
returns the logger unchanged — and a logger started without a verbosity
argument has verbose mode off (`verboseDefault = false`). -/
theorem debug_noop_when_not_verbose_and_default_off (l : Mylogger) (p : Payload)
    (now : Nat) (h : l.verbose = false) :
    l.Debug p = OpResult.proceeded l ∧ (StartLogger now []).verbose = false := by
  constructor
  · simp [Mylogger.Debug, h]
  · rfl

/-- C8 witness: the no-op at a concrete logger (freshly started, no verbosity
argument) and payload. -/
theorem debug_noop_when_not_verbose_and_default_off_witness :
    L0.verbose = false ∧
    (L0.Debug PBoom = OpResult.proceeded L0 ∧ (StartLogger 3 []).verbose = false) :=
  ⟨rfl, debug_noop_when_not_verbose_and_default_off L0 PBoom 3 rfl⟩

/-- C9.  The claim says the shutdown state machine never deadlocks, including
when the Mediator Loop invokes the Shutdown Sequencer from its OS-signal
branch while the mediator is registered in the Work Tracker.  In the model of
exactly that scenario (signal delivered to a freshly started logger), no
reachable state ever gets past `wg.Wait()`: the mediator's own registration
can only be released by the `done` case of its select loop, which the mediator
— itself blocked inside the sequencer — can never run, so the sequence never
completes. -/
theorem signal_shutdown_never_completes (s : SigShutdown.SState)
    (h : SigShutdown.Reach s) : s.phase ≠ SigShutdown.Phase.sequencerDone :=
  (sig_inv_reach s h).2.2

/-- C9 witness: the theorem applied to the scenario's initial state. -/
theorem signal_shutdown_never_completes_witness :
    SigShutdown.s0.phase ≠ SigShutdown.Phase.sequencerDone :=
  signal_shutdown_never_completes SigShutdown.s0 Relation.ReflTransGen.refl

/-- C10.  The start timestamp is written once by `StartLogger` and no public
operation writes it again: `StartTime` of the state after any façade call
(emit at each severity, Quit, Shutdown, AddToWaitGroup, Done) equals
`StartTime` before it. -/
theorem start_time_immutable_under_public_ops (now0 now : Nat) (v : List Bool)
    (op : PublicOp) (l : Mylogger) :
    Mylogger.StartTime (StartLogger now0 v) = now0 ∧
    Mylogger.StartTime (applyOp now op l) = Mylogger.StartTime l := by
  refine ⟨rfl, ?_⟩
  cases op with
  | emitError p =>
    simp only [applyOp, Mylogger.Error]
    split <;> rfl
  | emitWarning p =>
    simp only [applyOp, Mylogger.Warning]
    split <;> rfl
  | emitInfo p =>
    simp only [applyOp, Mylogger.Info]
    split <;> rfl
  | emitDebug p =>
    simp only [applyOp, Mylogger.Debug]
    split
    · split <;> rfl
    · rfl
  | emitCritical p => rfl
  | quitOp p =>
    simp only [applyOp, Mylogger.Quit]
    split <;> rfl
  | shutdownOp e =>
    simp only [applyOp]
    split <;> rfl
  | addOp => rfl
  | doneOp => rfl
